import Mathlib

set_option maxHeartbeats 1000000

/- Verification development for the snapshot-range aggregation subsystem of
   the crc_scripts repository: the classes Dust_Evo and Dust_Evo_Data in
   src/gizmo_library/time_evolution.py, together with the weighted-percentile
   routine in src/dust_plots.py. Numpy float arrays are embedded as lists of
   an extended-rational value type so that NaN and infinity semantics are
   exact; rounding plays no role in any verified claim. -/

section DustEvoVerification

attribute [local semireducible] Rat.add Rat.sub Rat.mul Rat.inv

/-- Extended value carried by the numpy float arrays: a finite rational
together with the two infinities and NaN. The verified claims depend on
division by zero, NaN propagation and NaN-poisoned comparisons, all of which
are exact. Negative zero is not modelled (no verified claim depends on it). -/
inductive FVal where
  | num (q : ℚ)
  | inf
  | ninf
  | nan
  deriving DecidableEq, Repr

/-- IEEE-style test for NaN. -/
def FVal.isnan : FVal → Bool
  | .nan => true
  | _ => false

/-- IEEE-style addition on extended values. -/
def FVal.add : FVal → FVal → FVal
  | .nan, _ => .nan
  | _, .nan => .nan
  | .inf, .ninf => .nan
  | .ninf, .inf => .nan
  | .inf, _ => .inf
  | _, .inf => .inf
  | .ninf, _ => .ninf
  | _, .ninf => .ninf
  | .num a, .num b => .num (a + b)

/-- IEEE-style multiplication on extended values. -/
def FVal.mul : FVal → FVal → FVal
  | .nan, _ => .nan
  | _, .nan => .nan
  | .inf, .inf => .inf
  | .inf, .ninf => .ninf
  | .ninf, .inf => .ninf
  | .ninf, .ninf => .inf
  | .inf, .num b => if 0 < b then .inf else if b < 0 then .ninf else .nan
  | .num a, .inf => if 0 < a then .inf else if a < 0 then .ninf else .nan
  | .ninf, .num b => if 0 < b then .ninf else if b < 0 then .inf else .nan
  | .num a, .ninf => if 0 < a then .ninf else if a < 0 then .inf else .nan
  | .num a, .num b => .num (a * b)

/-- IEEE-style division on extended values: a nonzero finite value divided by
zero gives a signed infinity and zero divided by zero gives NaN, exactly as
numpy elementwise division of float arrays behaves (positive zero only). -/
def FVal.div : FVal → FVal → FVal
  | .nan, _ => .nan
  | _, .nan => .nan
  | .inf, .inf => .nan
  | .inf, .ninf => .nan
  | .ninf, .inf => .nan
  | .ninf, .ninf => .nan
  | .inf, .num b => if b < 0 then .ninf else .inf
  | .ninf, .num b => if b < 0 then .inf else .ninf
  | .num _, .inf => .num 0
  | .num _, .ninf => .num 0
  | .num a, .num b =>
      if b = 0 then (if a = 0 then .nan else if 0 < a then .inf else .ninf)
      else .num (a / b)

/-- IEEE-style comparison: any comparison involving NaN is false. -/
def FVal.le : FVal → FVal → Bool
  | .nan, _ => false
  | _, .nan => false
  | .ninf, _ => true
  | _, .inf => true
  | .inf, _ => false
  | .num _, .ninf => false
  | .num a, .num b => decide (a ≤ b)

/-- IEEE-style strict comparison: any comparison involving NaN is false. -/
def FVal.lt : FVal → FVal → Bool
  | .nan, _ => false
  | _, .nan => false
  | .inf, _ => false
  | _, .ninf => false
  | .ninf, _ => true
  | .num _, .inf => true
  | .num a, .num b => decide (a < b)

/-- Embedding of numpy.nansum on a one-dimensional array: NaN entries are
treated as zero, every other entry is accumulated left to right, and the sum
of an empty array is zero. -/
def nansum (l : List FVal) : FVal :=
  l.foldl (fun acc x => if x.isnan then acc else acc.add x) (FVal.num 0)

/-- Running cumulative sums of a rational list, as numpy cumsum produces. -/
def cumsum (l : List ℚ) : List ℚ :=
  (List.scanl (· + ·) 0 l).drop 1

/-- Insertion step used to embed the ascending value sort performed through
np.argsort in weighted_percentile: each pair carries a value and its weight. -/
def insertPair (p : ℚ × ℚ) : List (ℚ × ℚ) → List (ℚ × ℚ)
  | [] => [p]
  | q :: rest => if p.1 < q.1 then p :: q :: rest else q :: insertPair p rest

/-- Sort value-weight pairs by ascending value. -/
def sortPairs (l : List (ℚ × ℚ)) : List (ℚ × ℚ) :=
  l.foldr insertPair []

/-- Index of the last coordinate that does not exceed x, for the binary search
inside numpy.interp on a non-decreasing coordinate list. -/
def lastLE (x : ℚ) (xp : List ℚ) : Option ℕ :=
  (List.range xp.length).foldl
    (fun acc j => if xp.getD j 0 ≤ x then some j else acc) none

/-- Embedding of numpy.interp at a single point for a non-decreasing
coordinate list xp with ordinates fp: clamps below the first and above the
last coordinate, returns the exact ordinate on an exact coordinate match, and
otherwise interpolates linearly on the interval found by the search for the
last coordinate not exceeding x. -/
def npInterp (x : ℚ) (xp fp : List ℚ) : ℚ :=
  match lastLE x xp with
  | none => fp.getD 0 0
  | some j =>
      if j + 1 = xp.length then fp.getD j 0
      else if xp.getD j 0 = x then fp.getD j 0
      else fp.getD j 0 +
        (fp.getD (j + 1) 0 - fp.getD j 0) * (x - xp.getD j 0) /
          (xp.getD (j + 1) 0 - xp.getD j 0)

/-- Embedding of weighted_percentile from src/dust_plots.py. An empty input
array returns none, standing for the NaN-filled result the source returns.
Weights default to all ones; values are sorted ascending carrying their
weights; each sorted value is assigned the percent rank given by its
cumulative weight over the total weight; the requested percentiles are then
linearly interpolated with numpy.interp. A zero total weight makes every
percent rank NaN in the source (zero divided by zero), so the result is NaN
there; this is likewise modelled as none. -/
def weighted_percentile (a : List ℚ) (percentiles : List ℚ)
    (weights : Option (List ℚ)) : Option (List ℚ) :=
  if a.length = 0 then none
  else
    let w := weights.getD (List.replicate a.length (1 : ℚ))
    let pairs := sortPairs (a.zip w)
    let a_sort := pairs.map (·.1)
    let w_sort := pairs.map (·.2)
    let total : ℚ := w_sort.foldl (· + ·) 0
    if total = 0 then none
    else
      let p := (cumsum w_sort).map (fun c => c / total * 100)
      some (percentiles.map (fun x => npInterp x p a_sort))

/-- Substring membership test on character lists, embedding the Python
operator testing whether one string occurs inside another. -/
def listHasPrefixOf : List Char → List Char → Bool
  | [], _ => true
  | _ :: _, [] => false
  | a :: as, b :: bs => a = b && listHasPrefixOf as bs

/-- Auxiliary scan for strIn. -/
def strInAux (needle : List Char) : List Char → Bool
  | [] => needle.isEmpty
  | c :: rest => listHasPrefixOf needle (c :: rest) || strInAux needle rest

/-- Embedding of the Python membership test on strings. -/
def strIn (needle hay : String) : Bool :=
  strInAux needle.toList hay.toList

/-- Keyword-argument dictionaries are opaque to the aggregator: it only stores
them and forwards them to the external reader, so they are embedded as finite
association lists of strings. -/
abbrev KW := List (String × String)

/-- External particle collection, as returned by loadpart on the region
object of the external reader: a particle count and, for every property name,
the per-particle value array. The collection is external to the repository,
so it is modelled as an abstract table. -/
structure PartData where
  npart : ℕ
  prop : String → List FVal

/-- External region object: the gas particle collection (loadpart 0) and the
star particle collection (loadpart 4). -/
structure Galaxy where
  gas : PartData
  star : PartData

/-- External snapshot as used by Dust_Evo_Data.load: the header time and
redshift, the no-snapshot sentinel kind (k = -1 means no snapshot found), and
the region object obtained from loadhalo followed by set_zoom, or loaddisk
followed by set_disk, each taking the stored keyword dictionaries. -/
structure SnapData where
  k : ℤ
  time : FVal
  redshift : FVal
  halo : KW → KW → Galaxy
  disk : KW → KW → Galaxy

/-- Embedding of the per-subsample mask construction in Dust_Evo_Data.load:
given the subsample name, the number of gas particles, and the temperature,
neutral-fraction and molecular-fraction property arrays, produce the boolean
inclusion mask. An unrecognized name falls through to the final branch, which
(after printing a notice) includes every particle. -/
def subsample_mask (name : String) (n : ℕ) (T fnh fH2 : List FVal) : List Bool :=
  if name = "all" then List.replicate n true
  else if name = "cold" then T.map (fun t => t.le (FVal.num 1000))
  else if name = "hot" then T.map (fun t => (FVal.num 10000).le t)
  else if name = "neutral" then fnh.map (fun x => (FVal.num (1/2)).lt x)
  else if name = "molecular" then
    (List.zipWith FVal.mul fH2 fnh).map (fun x => (FVal.num (1/2)).lt x)
  else List.replicate n true

/-- Boolean-mask indexing on a parallel pair of arrays, as numpy fancy
indexing vals[mask] behaves. -/
def applyMask (mask : List Bool) (vals : List FVal) : List FVal :=
  (mask.zip vals).filterMap (fun p => if p.1 then some p.2 else none)

/-- Modelled from the spec: Dust_Evo_Data.load imports weighted_percentile
from gizmo_library.utils, a module absent from the repository snapshot, and
calls it with percentiles=[50] and ignore_invalid=True. It is modelled with
the repository version of the routine (dust_plots.weighted_percentile)
evaluated at the 50th percentile, where ignore_invalid drops the non-finite
entries and NaN is returned when nothing is left or the weights sum to zero.
No verified claim depends on the values this helper produces. -/
def wpMedian (vals weights : List FVal) : FVal :=
  let pairs := (vals.zip weights).filterMap
    (fun p => match p with
      | (FVal.num v, FVal.num w) => some (v, w)
      | _ => none)
  match weighted_percentile (pairs.map (·.1)) [50] (some (pairs.map (·.2))) with
  | some [v] => FVal.num v
  | _ => FVal.nan

/-- State of the aggregation, embedding the Dust_Evo_Data class of
src/gizmo_library/time_evolution.py. Numpy arrays are lists; the data
dictionaries keep their key lists in the fields totals, medians,
median_subsamples and star_totals, and each dictionary is a total function
that is meaningful on its key list (a missing key is the empty list, standing
for the KeyError a Python lookup would raise). The redshift array exists only
on cosmological runs; it is the empty list otherwise, standing for the absent
attribute. Widening through change_snap_lims pads snap_loaded with numpy
float zeros, silently turning the boolean array into a float array whose
entries 0.0 and 1.0 are truthiness-equivalent to the booleans; the embedding
keeps booleans throughout. -/
structure Dust_Evo_Data where
  sdir : String
  snap_lims : ℤ × ℤ
  num_snaps : ℤ
  snap_loaded : List Bool
  cosmological : Bool
  time : List FVal
  redshift : List FVal
  pb_fix : Bool
  totals : List String
  medians : List String
  median_subsamples : List String
  star_totals : List String
  total_data : String → List FVal
  star_total_data : String → List FVal
  median_data : String → String → List FVal
  setHalo : Bool
  setDisk : Bool
  load_kwargs : KW
  set_kwargs : KW
  all_snaps_loaded : Bool

/-- Embedding of Dust_Evo_Data.__init__. -/
def Dust_Evo_Data.init (sdir : String) (snap_lims : ℤ × ℤ)
    (totals medians median_subsamples star_totals : List String)
    (cosmological : Bool) (pb_fix : Bool) : Dust_Evo_Data :=
  let n : ℕ := ((snap_lims.2 + 1) - snap_lims.1).toNat
  { sdir := sdir
    snap_lims := snap_lims
    num_snaps := (snap_lims.2 + 1) - snap_lims.1
    snap_loaded := List.replicate n false
    cosmological := cosmological
    time := List.replicate n (FVal.num 0)
    redshift := if cosmological then List.replicate n (FVal.num 0) else []
    pb_fix := pb_fix && !cosmological
    totals := totals
    medians := medians
    median_subsamples := median_subsamples
    star_totals := star_totals
    total_data := fun key => if key ∈ totals then List.replicate n (FVal.num 0) else []
    star_total_data := fun key => if key ∈ star_totals then List.replicate n (FVal.num 0) else []
    median_data := fun sub key =>
      if sub ∈ median_subsamples ∧ key ∈ medians then List.replicate n (FVal.num 0) else []
    setHalo := false
    setDisk := false
    load_kwargs := []
    set_kwargs := []
    all_snaps_loaded := false }

/-- Embedding of Dust_Evo_Data.change_snap_lims. The source computes the
number of appended slots as snap_lims[1] - self.snap_lims[0], reading the
lower bound of the already updated stored limits where the analogous prepend
branch reads the bound being compared; this is kept exactly as written. -/
def Dust_Evo_Data.change_snap_lims (s : Dust_Evo_Data) (snap_lims : ℤ × ℤ) :
    Dust_Evo_Data :=
  let pre : ℤ := if snap_lims.1 < s.snap_lims.1 then s.snap_lims.1 - snap_lims.1 else 0
  let lo : ℤ := if snap_lims.1 < s.snap_lims.1 then snap_lims.1 else s.snap_lims.1
  let app : ℤ := if snap_lims.2 > s.snap_lims.2 then snap_lims.2 - lo else 0
  let hi : ℤ := if snap_lims.2 > s.snap_lims.2 then snap_lims.2 else s.snap_lims.2
  let preN := pre.toNat
  let appN := app.toNat
  let pad := fun (l : List FVal) =>
    List.replicate preN (FVal.num 0) ++ l ++ List.replicate appN (FVal.num 0)
  { s with
    snap_lims := (lo, hi)
    num_snaps := (snap_lims.2 + 1) - snap_lims.1
    time := pad s.time
    redshift := if s.cosmological then pad s.redshift else s.redshift
    snap_loaded := List.replicate preN false ++ s.snap_loaded ++ List.replicate appN false
    total_data := fun key =>
      if key ∈ s.totals then pad (s.total_data key) else s.total_data key
    star_total_data := fun key =>
      if key ∈ s.star_totals then pad (s.star_total_data key) else s.star_total_data key
    median_data := fun sub key =>
      if sub ∈ s.median_subsamples ∧ key ∈ s.medians then pad (s.median_data sub key)
      else s.median_data sub key
    all_snaps_loaded := false }

/-- Embedding of Dust_Evo_Data.set_halo: a second call finds setHalo already
true and does nothing. -/
def Dust_Evo_Data.set_halo (s : Dust_Evo_Data) (load_kwargs set_kwargs : KW) :
    Dust_Evo_Data :=
  if s.setHalo then s
  else { s with setHalo := true, load_kwargs := load_kwargs, set_kwargs := set_kwargs }

/-- Embedding of Dust_Evo_Data.set_disk: a second call finds setDisk already
true and does nothing. -/
def Dust_Evo_Data.set_disk (s : Dust_Evo_Data) (load_kwargs set_kwargs : KW) :
    Dust_Evo_Data :=
  if s.setDisk then s
  else { s with setDisk := true, load_kwargs := load_kwargs, set_kwargs := set_kwargs }

/-- Embedding of the per-snapshot body of Dust_Evo_Data.load at position i
with snapshot number snum: reads the snapshot from the external reader,
stores time (and redshift when cosmological), selects the region, computes
every total with nansum, every per-subsample weighted median, and the star
totals (all zero when no star particle is present; the star-formation rate is
the summed mass of stars of age at most 10 divided by 1E6). The loaded flag
is not touched here; the caller sets it afterwards, as in the source. -/
def Dust_Evo_Data.processSnap (reader : ℤ → SnapData) (s : Dust_Evo_Data)
    (i : ℕ) (snum : ℤ) : Dust_Evo_Data :=
  let sp := reader snum
  let gal := if s.setHalo then sp.halo s.load_kwargs s.set_kwargs
             else sp.disk s.load_kwargs s.set_kwargs
  let G := gal.gas
  let Gmass := G.prop "M"
  let T := G.prop "T"
  let fnh := G.prop "nh"
  let fH2 := G.prop "fH2"
  let masks := fun name => subsample_mask name Gmass.length T fnh fH2
  let S := gal.star
  { s with
    time := s.time.set i sp.time
    redshift := if s.cosmological then s.redshift.set i sp.redshift else s.redshift
    total_data := fun key =>
      if key ∈ s.totals then (s.total_data key).set i (nansum (G.prop key))
      else s.total_data key
    median_data := fun sub key =>
      if sub ∈ s.median_subsamples ∧ key ∈ s.medians then
        (s.median_data sub key).set i
          (wpMedian (applyMask (masks sub) (G.prop key)) (applyMask (masks sub) Gmass))
      else s.median_data sub key
    star_total_data := fun key =>
      if key ∈ s.star_totals then
        (if S.npart = 0 then (s.star_total_data key).set i (FVal.num 0)
         else if key = "M_star" then (s.star_total_data key).set i (nansum (S.prop "M"))
         else if key = "sfr" then
           (s.star_total_data key).set i
             ((nansum (applyMask ((S.prop "age").map (fun a => a.le (FVal.num 10)))
               (S.prop "M"))).div (FVal.num 1000000))
         else s.star_total_data key)
      else s.star_total_data key }

/-- Loop of Dust_Evo_Data.load over the enumerated snapshot numbers, carrying
the count of snapshots newly loaded in this call. Reaching the count limit
returns at the top of the body without touching all_snaps_loaded; exhausting
the range sets all_snaps_loaded. -/
def Dust_Evo_Data.loadGo (reader : ℤ → SnapData) (inc : ℕ) :
    List (ℕ × ℤ) → Dust_Evo_Data → ℕ → Dust_Evo_Data
  | [], s, _ => { s with all_snaps_loaded := true }
  | (i, snum) :: rest, s, cnt =>
    if inc ≤ cnt then s
    else if s.snap_loaded.getD i false then Dust_Evo_Data.loadGo reader inc rest s cnt
    else
      let s1 := Dust_Evo_Data.processSnap reader s i snum
      Dust_Evo_Data.loadGo reader inc rest
        { s1 with snap_loaded := s1.snap_loaded.set i true } (cnt + 1)

/-- Positions paired with snapshot numbers, embedding the enumeration of
np.arange(lo, hi + 1): structural helper for the list of consecutive
positions starting at a given one. -/
def rangeFrom : ℕ → ℕ → List ℕ
  | _, 0 => []
  | s, n + 1 => s :: rangeFrom (s + 1) n

/-- Embedding of Dust_Evo_Data.load. The external Snapshot constructor is the
reader parameter; increment is the batch cap. Without a configured selector
the call prints a notice and returns the state unchanged. -/
def Dust_Evo_Data.load (s : Dust_Evo_Data) (reader : ℤ → SnapData)
    (increment : ℕ) : Dust_Evo_Data :=
  if !s.setHalo && !s.setDisk then s
  else
    Dust_Evo_Data.loadGo reader increment
      ((rangeFrom 0 ((s.snap_lims.2 + 1 - s.snap_lims.1).toNat)).map
        (fun i => (i, s.snap_lims.1 + (i : ℤ))))
      s 0

/-- Default totals list of Dust_Evo.__init__. -/
def defaultTotals : List String :=
  ["M_gas", "M_H2", "M_gas_neutral", "M_dust", "M_metals", "M_sil", "M_carb",
   "M_SiC", "M_iron", "M_ORes", "M_SNeIa_dust", "M_SNeII_dust", "M_AGB_dust", "M_acc_dust"]

/-- Default medians list of Dust_Evo.__init__. -/
def defaultMedians : List String :=
  ["D/Z", "Z", "O/H", "O/H_gas", "dz_acc", "dz_SNeIa", "dz_SNeII", "dz_AGB", "dz_sil",
   "dz_carb", "dz_SiC", "dz_iron", "dz_ORes", "CinCO", "fdense", "fH2"]

/-- Default median subsamples list of Dust_Evo.__init__. -/
def defaultSubsamples : List String :=
  ["all", "cold", "hot", "neutral", "molecular"]

/-- Default star totals list of Dust_Evo.__init__. -/
def defaultStarTotals : List String :=
  ["M_star", "sfr"]

/-- Characters of a path with trailing separators removed, the part of
os.path.normpath that matters for an already collapsed relative path. -/
def dropTrailingSep (l : List Char) : List Char :=
  (l.reverse.dropWhile (fun c => c = '/')).reverse

/-- Characters before the last separator, as os.path.dirname behaves: the
empty list when no separator occurs. -/
def beforeLastSep (l : List Char) : List Char :=
  ((l.reverse.dropWhile (fun c => c ≠ '/')).drop 1).reverse

/-- Characters after the last separator, as os.path.basename behaves. -/
def afterLastSep (l : List Char) : List Char :=
  (l.reverse.takeWhile (fun c => c ≠ '/')).reverse

/-- Embedding of os.path.basename(os.path.dirname(os.path.normpath(sdir)))
from Dust_Evo.__init__, for simple relative paths without duplicate
separators or dot components. -/
def basenameOfSdir (sdir : String) : String :=
  String.mk (afterLastSep (beforeLastSep (dropTrailingSep sdir.toList)))

/-- The pickle files keyed by path: the filesystem as the persistence layer
sees it. Serialization of a Dust_Evo_Data object round-trips through pickle
as one unit, so a stored file is modelled as the object itself. -/
def FS := String → Option Dust_Evo_Data

/-- The filesystem with no pickle file. -/
def emptyFS : FS := fun _ => none

/-- Embedding of the Dust_Evo wrapper class of time_evolution.py. -/
structure Dust_Evo where
  totals : List String
  medians : List String
  median_subsamples : List String
  star_totals : List String
  sdir : String
  snap_lims : ℤ × ℤ
  num_snaps : ℤ
  cosmological : Bool
  dirc : String
  pb_fix : Bool
  setHalo : Bool
  setDisk : Bool
  basename : String
  name : String
  dust_evo_data : Dust_Evo_Data
  k : ℕ

/-- Embedding of Dust_Evo.__init__. The optional name sets default to the
fixed vocabularies above. The constructor probes the filesystem at
dirc + name, with no extension, and restores the stored Dust_Evo_Data from
there when the probe hits; otherwise it builds a fresh state. -/
def Dust_Evo.init (fs : FS) (sdir : String) (snap_lims : ℤ × ℤ)
    (cosmological : Bool) (periodic_bound_fix : Bool)
    (totals medians median_subsamples star_totals : Option (List String))
    (dirc : String) (prefixName : String) : Dust_Evo :=
  let totals := totals.getD defaultTotals
  let medians := medians.getD defaultMedians
  let median_subsamples := median_subsamples.getD defaultSubsamples
  let star_totals := star_totals.getD defaultStarTotals
  let basename := basenameOfSdir sdir
  let name := "dust_evo_" ++ prefixName ++ "_" ++ basename ++ "_snaps"
  let data := match fs (dirc ++ name) with
    | some d => d
    | none => Dust_Evo_Data.init sdir snap_lims totals medians median_subsamples
        star_totals cosmological periodic_bound_fix
  { totals := totals
    medians := medians
    median_subsamples := median_subsamples
    star_totals := star_totals
    sdir := sdir
    snap_lims := snap_lims
    num_snaps := (snap_lims.2 + 1) - snap_lims.1
    cosmological := cosmological
    dirc := dirc
    pb_fix := periodic_bound_fix && !cosmological
    setHalo := false
    setDisk := false
    basename := basename
    name := name
    dust_evo_data := data
    k := 0 }

/-- Embedding of Dust_Evo.set_halo: delegates to the held state and records
the wrapper flag unconditionally. -/
def Dust_Evo.set_halo (e : Dust_Evo) (load_kwargs set_kwargs : KW) : Dust_Evo :=
  { e with dust_evo_data := e.dust_evo_data.set_halo load_kwargs set_kwargs
           setHalo := true }

/-- Embedding of Dust_Evo.set_disk. -/
def Dust_Evo.set_disk (e : Dust_Evo) (load_kwargs set_kwargs : KW) : Dust_Evo :=
  { e with dust_evo_data := e.dust_evo_data.set_disk load_kwargs set_kwargs
           setDisk := true }

/-- Embedding of Dust_Evo.save: writes the held state to
dirc + name + .pickle. -/
def Dust_Evo.save (e : Dust_Evo) (fs : FS) : FS :=
  fun p => if p = e.dirc ++ e.name ++ ".pickle" then some e.dust_evo_data else fs p

/-- Embedding of the restore step at the top of Dust_Evo.load: when the
pickle file at dirc + name + .pickle exists its state replaces the held one,
and change_snap_lims is applied when the requested limits differ from the
restored ones. -/
def Dust_Evo.loadRestore (fs : FS) (e : Dust_Evo) : Dust_Evo :=
  match fs (e.dirc ++ e.name ++ ".pickle") with
  | some d =>
      { e with dust_evo_data :=
          if e.snap_lims = d.snap_lims then d else d.change_snap_lims e.snap_lims }
  | none => e

/-- One iteration of the while-loop in Dust_Evo.load: the held state performs
one bounded batch. The save call following it in the source writes the pickle
and leaves the in-memory state unchanged, so it does not appear here; the
loop exits when all_snaps_loaded becomes true. -/
def Dust_Evo.loadStep (reader : ℤ → SnapData) (increment : ℕ) (e : Dust_Evo) :
    Dust_Evo :=
  { e with dust_evo_data := e.dust_evo_data.load reader increment }

/-- Elementwise division of two equal-length numpy arrays. -/
def divArr (a b : List FVal) : List FVal :=
  List.zipWith FVal.div a b

/-- Embedding of the assignment data[np.isnan(data)] = 0. -/
def nanZero (l : List FVal) : List FVal :=
  l.map (fun x => if x.isnan then FVal.num 0 else x)

/-- Embedding of Dust_Evo.get_data: none stands for the None the source
returns after printing a notice. Derived fraction names are dispatched by
substring matching on the requested name and statistic, exactly as in the
source; for a total statistic the quotients of the stored totals have their
NaN entries replaced by zero. -/
def Dust_Evo.get_data (e : Dust_Evo) (data_name : String)
    (subsample : String) (statistic : String) : Option (List FVal) :=
  if statistic ≠ "total" ∧ statistic ≠ "median" then none
  else
    let d := e.dust_evo_data
    if data_name ∈ e.totals then some (d.total_data data_name)
    else if data_name ∈ e.medians then
      (if subsample ∈ e.median_subsamples then some (d.median_data subsample data_name)
       else none)
    else if data_name ∈ e.star_totals then some (d.star_total_data data_name)
    else if data_name = "time" then some d.time
    else if data_name = "redshift" ∧ d.cosmological then some d.redshift
    else if strIn "source" data_name then
      (if strIn "total" statistic then
        (if strIn "source_acc" data_name then
           some (nanZero (divArr (d.total_data "M_acc_dust") (d.total_data "M_dust")))
         else if strIn "source_SNeIa" data_name then
           some (nanZero (divArr (d.total_data "M_SNeIa_dust") (d.total_data "M_dust")))
         else if strIn "source_SNeII" data_name then
           some (nanZero (divArr (d.total_data "M_SNeII_dust") (d.total_data "M_dust")))
         else if strIn "source_AGB" data_name then
           some (nanZero (divArr (d.total_data "M_AGB_dust") (d.total_data "M_dust")))
         else none)
       else if strIn "median" statistic then
        (if strIn "source_acc" data_name then some (d.median_data subsample "dz_acc")
         else if strIn "source_SNeIa" data_name then some (d.median_data subsample "dz_SNeIa")
         else if strIn "source_SNeII" data_name then some (d.median_data subsample "dz_SNeII")
         else if strIn "source_AGB" data_name then some (d.median_data subsample "dz_AGB")
         else none)
       else none)
    else if strIn "spec" data_name then
      (if strIn "total" statistic then
        (if strIn "spec_sil" data_name then
           some (nanZero (divArr (d.total_data "M_sil") (d.total_data "M_dust")))
         else if strIn "spec_carb" data_name then
           some (nanZero (divArr (d.total_data "M_carb") (d.total_data "M_dust")))
         else if strIn "spec_SiC" data_name then
           some (nanZero (divArr (d.total_data "M_SiC") (d.total_data "M_dust")))
         else if strIn "spec_iron" data_name ∧ ¬ strIn "spec_ironIncl" data_name then
           some (nanZero (divArr (d.total_data "M_iron") (d.total_data "M_dust")))
         else if strIn "spec_ORes" data_name then
           some (nanZero (divArr (d.total_data "M_ORes") (d.total_data "M_dust")))
         else none)
       else if strIn "median" statistic then
        (if strIn "spec_sil" data_name then some (d.median_data subsample "dz_sil")
         else if strIn "spec_carb" data_name then some (d.median_data subsample "dz_carb")
         else if strIn "spec_SiC" data_name then some (d.median_data subsample "dz_SiC")
         else if strIn "spec_iron" data_name ∧ ¬ strIn "spec_ironIncl" data_name then
           some (d.median_data subsample "dz_iron")
         else if strIn "spec_ORes" data_name then some (d.median_data subsample "dz_ORes")
         else none)
       else none)
    else none

/-- Gas collection with one particle whose every property value is one. -/
def oneGas : PartData :=
  { npart := 1, prop := fun _ => [FVal.num 1] }

/-- Region object of the plain test snapshot: one gas particle, no stars. -/
def oneGal : Galaxy :=
  { gas := oneGas, star := { npart := 0, prop := fun _ => [] } }

/-- Plain test snapshot for exercising load. -/
def oneSnap : SnapData :=
  { k := 1, time := FVal.num 1, redshift := FVal.num 0,
    halo := fun _ _ => oneGal, disk := fun _ _ => oneGal }

/-- Reader returning the plain test snapshot at every index. -/
def oneReader : ℤ → SnapData := fun _ => oneSnap

/-- Empty-result region object: no gas and no star particle. -/
def emptyGal : Galaxy :=
  { gas := { npart := 0, prop := fun _ => [] },
    star := { npart := 0, prop := fun _ => [] } }

/-- Sentinel snapshot standing for no snapshot found at the index: kind is
minus one and every particle collection is empty. -/
def sentinelSnap : SnapData :=
  { k := -1, time := FVal.num 0, redshift := FVal.num 0,
    halo := fun _ _ => emptyGal, disk := fun _ _ => emptyGal }

/-- Reader that finds no snapshot at any index. -/
def sentinelReader : ℤ → SnapData := fun _ => sentinelSnap

/-- Ten-snapshot aggregation state with a configured halo selector, for the
batch-size scenario. -/
def batchState : Dust_Evo_Data :=
  (Dust_Evo_Data.init "m12i/output/" (0, 9) ["M_gas"] ["D/Z"] ["all"] ["M_star"]
    false false).set_halo [] []

/-- Single-snapshot aggregation state with a configured halo selector, for
the missing-snapshot scenario. -/
def missState : Dust_Evo_Data :=
  (Dust_Evo_Data.init "m12i/output/" (0, 0) ["M_gas"] ["D/Z"] ["all"] ["M_star"]
    false false).set_halo [] []

/-- Reader whose gas particle carries a NaN dust mass and unit mass in every
other property, so that the loaded totals hold zero total dust mass next to a
nonzero accreted dust mass. -/
def skewReader : ℤ → SnapData :=
  fun _ =>
    { k := 1, time := FVal.num 1, redshift := FVal.num 0,
      halo := fun _ _ =>
        { gas := { npart := 1,
                   prop := fun p => if p = "M_dust" then [FVal.nan] else [FVal.num 1] },
          star := { npart := 0, prop := fun _ => [] } },
      disk := fun _ _ => emptyGal }

/-- Wrapper aggregator over one snapshot with default name sets, constructed
on the empty filesystem and configured for a halo, then loaded once through
the loop body of Dust_Evo.load with the skewed reader. -/
def skewEvo : Dust_Evo :=
  Dust_Evo.loadStep skewReader 5
    (Dust_Evo.loadRestore emptyFS
      ((Dust_Evo.init emptyFS "m12i/output/" (0, 0) false false
        none none none none "./" "").set_halo [] []))

/-- Wrapper aggregator freshly constructed on the empty filesystem, for the
persistence round trip. -/
def rtBase : Dust_Evo :=
  Dust_Evo.init emptyFS "m12i/output/" (0, 0) false false none none none none "./" ""

/-- Filesystem produced by configuring the halo selector on the fresh
aggregator and saving it. -/
def rtSaved : FS :=
  (rtBase.set_halo [("hkey", "hval")] []).save emptyFS

/-- Wrapper aggregator constructed a second time, with identical arguments,
on the filesystem holding the saved pickle. -/
def rtSecond : Dust_Evo :=
  Dust_Evo.init rtSaved "m12i/output/" (0, 0) false false none none none none "./" ""

/-- Two-snapshot aggregation state over the limits zero and one, for the
range-widening scenario. -/
def narrowInit : Dust_Evo_Data :=
  Dust_Evo_Data.init "m12i/output/" (0, 1) ["M_gas"] ["D/Z"] ["all"] ["M_star"]
    false false

/-- The two-snapshot state widened on the upper side to the limits zero and
three. -/
def widenedState : Dust_Evo_Data :=
  narrowInit.change_snap_lims (0, 3)

/-- Aggregation state configured for a halo with distinguished keyword
dictionaries, for the reconfiguration scenario. -/
def haloConfigured : Dust_Evo_Data :=
  (Dust_Evo_Data.init "m12i/output/" (0, 0) ["M_gas"] ["D/Z"] ["all"] ["M_star"]
    false false).set_halo [("hl", "1")] [("hs", "2")]

/-- The halo-configured state after a subsequent disk configuration call. -/
def thenDiskConfigured : Dust_Evo_Data :=
  haloConfigured.set_disk [("dl", "3")] [("ds", "4")]

/-- Reading of the claim that a batch marks exactly the first k not yet
loaded indices in ascending order and then stops, written from its words as a
walk over the loaded-flag list: a true flag is passed over, a false flag is
set to true while budget remains, and the first false flag found with the
budget exhausted ends the walk with the rest unchanged. -/
def specBatchMark : ℕ → List Bool → List Bool
  | _, [] => []
  | inc, true :: rest => true :: specBatchMark inc rest
  | 0, false :: rest => false :: rest
  | inc + 1, false :: rest => true :: specBatchMark inc rest

lemma specBatchMark_cons_true (inc : ℕ) (rest : List Bool) :
    specBatchMark inc (true :: rest) = true :: specBatchMark inc rest := by
  cases inc <;> rfl

lemma specBatchMark_cons_false (inc : ℕ) (rest : List Bool) :
    specBatchMark (inc + 1) (false :: rest) = true :: specBatchMark inc rest := rfl

lemma specBatchMark_zero : ∀ l : List Bool, specBatchMark 0 l = l := by
  intro l
  induction l with
  | nil => rfl
  | cons b rest ih => cases b <;> simp [specBatchMark, ih]

lemma take_set_eq {α : Type} : ∀ (l : List α) (i : ℕ) (a : α),
    (l.set i a).take i = l.take i := by
  intro l
  induction l with
  | nil => intro i a; cases i <;> rfl
  | cons x xs ih =>
    intro i a
    cases i with
    | zero => rfl
    | succ j => simp only [List.set, List.take, List.cons.injEq, true_and]; exact ih j a

lemma drop_set_eq {α : Type} : ∀ (l : List α) (i : ℕ) (a : α),
    (l.set i a).drop (i + 1) = l.drop (i + 1) := by
  intro l
  induction l with
  | nil => intro i a; cases i <;> rfl
  | cons x xs ih =>
    intro i a
    cases i with
    | zero => rfl
    | succ j => simp only [List.set, List.drop]; exact ih j a

lemma getD_set_self {α : Type} : ∀ (l : List α) (i : ℕ) (a d : α),
    i < l.length → (l.set i a).getD i d = a := by
  intro l
  induction l with
  | nil => intro i a d h; simp at h
  | cons x xs ih =>
    intro i a d h
    cases i with
    | zero => rfl
    | succ j => exact ih j a d (by simpa using h)

lemma take_succ_getD {α : Type} : ∀ (l : List α) (i : ℕ) (d : α),
    i < l.length → l.take (i + 1) = l.take i ++ [l.getD i d] := by
  intro l
  induction l with
  | nil => intro i d h; simp at h
  | cons x xs ih =>
    intro i d h
    cases i with
    | zero => rfl
    | succ j =>
      simp only [List.take, List.getD, List.get?]
      rw [ih j d (by simpa using h)]
      rfl

lemma drop_getD_cons {α : Type} : ∀ (l : List α) (i : ℕ) (d : α),
    i < l.length → l.drop i = l.getD i d :: l.drop (i + 1) := by
  intro l
  induction l with
  | nil => intro i d h; simp at h
  | cons x xs ih =>
    intro i d h
    cases i with
    | zero => rfl
    | succ j => exact ih j d (by simpa using h)

lemma processSnap_snap_loaded (r : ℤ → SnapData) (s : Dust_Evo_Data) (i : ℕ)
    (snum : ℤ) : (Dust_Evo_Data.processSnap r s i snum).snap_loaded = s.snap_loaded := rfl

lemma processSnap_length (r : ℤ → SnapData) (s : Dust_Evo_Data) (i : ℕ) (snum : ℤ) :
    (Dust_Evo_Data.processSnap r s i snum).snap_loaded.length = s.snap_loaded.length := rfl

/-- The loaded flags after one pass of the batch loop over the tail of the
range beginning at a given position, related to the flag walk of
specBatchMark on the corresponding suffix of the flag list. -/
lemma loadGo_flags (r : ℤ → SnapData) (inc : ℕ) :
    ∀ (m front cnt : ℕ) (lo : ℤ) (s : Dust_Evo_Data),
      front + m = s.snap_loaded.length →
      (Dust_Evo_Data.loadGo r inc
        ((rangeFrom front m).map (fun i => (i, lo + (i : ℤ)))) s cnt).snap_loaded
        = s.snap_loaded.take front ++ specBatchMark (inc - cnt) (s.snap_loaded.drop front) := by
  intro m
  induction m with
  | zero =>
    intro front cnt lo s h
    have hf : front = s.snap_loaded.length := by omega
    simp [rangeFrom, Dust_Evo_Data.loadGo, hf, List.drop_length, specBatchMark]
  | succ m ih =>
    intro front cnt lo s h
    have hlt : front < s.snap_loaded.length := by omega
    rw [show rangeFrom front (m + 1) = front :: rangeFrom (front + 1) m from rfl]
    rw [List.map_cons, Dust_Evo_Data.loadGo]
    by_cases hic : inc ≤ cnt
    · rw [if_pos hic]
      have hz : inc - cnt = 0 := by omega
      rw [hz, specBatchMark_zero, List.take_append_drop]
    · rw [if_neg hic]
      cases hflag : s.snap_loaded.getD front false with
      | true =>
        rw [if_pos rfl]
        rw [ih (front + 1) cnt lo s (by omega)]
        rw [drop_getD_cons s.snap_loaded front false hlt, hflag]
        rw [specBatchMark_cons_true]
        rw [take_succ_getD s.snap_loaded front false hlt, hflag]
        simp
      | false =>
        rw [if_neg (by simp [hflag])]
        have hset : ({ Dust_Evo_Data.processSnap r s front (lo + (front : ℤ)) with
            snap_loaded := (Dust_Evo_Data.processSnap r s front
              (lo + (front : ℤ))).snap_loaded.set front true } : Dust_Evo_Data).snap_loaded
            = s.snap_loaded.set front true := by
          rw [show ({ Dust_Evo_Data.processSnap r s front (lo + (front : ℤ)) with
            snap_loaded := (Dust_Evo_Data.processSnap r s front
              (lo + (front : ℤ))).snap_loaded.set front true } : Dust_Evo_Data).snap_loaded
            = (Dust_Evo_Data.processSnap r s front (lo + (front : ℤ))).snap_loaded.set front true
            from rfl]
          rw [processSnap_snap_loaded]
        rw [ih (front + 1) (cnt + 1) lo _ (by rw [hset, List.length_set]; omega)]
        rw [hset]
        rw [take_succ_getD (s.snap_loaded.set front true) front false
              (by rw [List.length_set]; exact hlt)]
        rw [take_set_eq, getD_set_self s.snap_loaded front true false hlt, drop_set_eq]
        rw [drop_getD_cons s.snap_loaded front false hlt, hflag]
        have hb : inc - cnt = (inc - (cnt + 1)) + 1 := by omega
        rw [hb, specBatchMark_cons_false]
        simp

lemma load_no_selector (s : Dust_Evo_Data) (r : ℤ → SnapData) (inc : ℕ)
    (h1 : s.setHalo = false) (h2 : s.setDisk = false) : s.load r inc = s := by
  rw [Dust_Evo_Data.load, if_pos (by rw [h1, h2]; rfl)]

lemma all_true_eta (s : Dust_Evo_Data) (h : s.all_snaps_loaded = true) :
    ({ s with all_snaps_loaded := true } : Dust_Evo_Data) = s := by
  cases s
  simp only at h
  simp [h]

lemma loadGo_all_loaded (r : ℤ → SnapData) (inc : ℕ) :
    ∀ (l : List (ℕ × ℤ)) (s : Dust_Evo_Data) (cnt : ℕ),
      (∀ p ∈ l, s.snap_loaded.getD p.1 false = true) →
      Dust_Evo_Data.loadGo r inc l s cnt = s ∨
      Dust_Evo_Data.loadGo r inc l s cnt = { s with all_snaps_loaded := true } := by
  intro l
  induction l with
  | nil => intro s cnt _; right; rfl
  | cons p rest ih =>
    intro s cnt h
    obtain ⟨i, snum⟩ := p
    rw [Dust_Evo_Data.loadGo]
    by_cases hic : inc ≤ cnt
    · rw [if_pos hic]; left; rfl
    · rw [if_neg hic, if_pos (h (i, snum) (List.mem_cons_self _ _))]
      exact ih s cnt (fun q hq => h q (List.mem_cons_of_mem _ hq))

lemma mem_rangeFrom : ∀ (n s i : ℕ), i ∈ rangeFrom s n → i < s + n := by
  intro n
  induction n with
  | zero => intro s i h; simp [rangeFrom] at h
  | succ n ih =>
    intro s i h
    rw [show rangeFrom s (n + 1) = s :: rangeFrom (s + 1) n from rfl] at h
    rcases List.mem_cons.mp h with h | h
    · omega
    · have := ih (s + 1) i h; omega

/-- A fully loaded state is a fixed point of the batch loader, up to the
all_snaps_loaded flag it may set; with the flag already set it is exactly a
fixed point. -/
lemma load_idem (s : Dust_Evo_Data) (r : ℤ → SnapData) (inc : ℕ)
    (hall : s.all_snaps_loaded = true)
    (hflags : ∀ i, i < ((s.snap_lims.2 + 1) - s.snap_lims.1).toNat →
      s.snap_loaded.getD i false = true) : s.load r inc = s := by
  rw [Dust_Evo_Data.load]
  by_cases hsel : (!s.setHalo && !s.setDisk) = true
  · rw [if_pos hsel]
  · rw [if_neg hsel]
    have h := loadGo_all_loaded r inc
      ((rangeFrom 0 ((s.snap_lims.2 + 1 - s.snap_lims.1).toNat)).map
        (fun i => (i, s.snap_lims.1 + (i : ℤ)))) s 0 ?_
    · rcases h with h | h
      · exact h
      · rw [h]; exact all_true_eta s hall
    · intro p hp
      rw [List.mem_map] at hp
      obtain ⟨i, hi, hpi⟩ := hp
      have := mem_rangeFrom _ 0 i hi
      rw [← hpi]
      exact hflags i (by omega)

lemma nanZero_not_nan (l : List FVal) : ∀ v ∈ nanZero l, v.isnan = false := by
  intro v hv
  rw [nanZero, List.mem_map] at hv
  obtain ⟨x, _, hx⟩ := hv
  rw [← hx]
  cases hxn : x.isnan with
  | false => simp [hxn]
  | true => simp only [hxn, if_true]; rfl

lemma divArr_getElem : ∀ (a b : List FVal) (i : ℕ) (x y : FVal),
    a[i]? = some x → b[i]? = some y → (divArr a b)[i]? = some (x.div y) := by
  intro a
  induction a with
  | nil => intro b i x y hx _; simp at hx
  | cons u us ih =>
    intro b i x y hx hy
    cases b with
    | nil => simp at hy
    | cons v vs =>
      cases i with
      | zero =>
        simp only [List.getElem?_cons_zero, Option.some.injEq] at hx hy
        simp [divArr, hx, hy]
      | succ j =>
        simp only [List.getElem?_cons_succ] at hx hy
        simpa [divArr] using ih vs j x y hx hy

lemma nanZero_getElem : ∀ (l : List FVal) (i : ℕ) (x : FVal),
    l[i]? = some x → (nanZero l)[i]? = some (if x.isnan then FVal.num 0 else x) := by
  intro l
  induction l with
  | nil => intro i x hx; simp at hx
  | cons u us ih =>
    intro i x hx
    cases i with
    | zero =>
      simp only [List.getElem?_cons_zero, Option.some.injEq] at hx
      simp [nanZero, hx]
    | succ j =>
      simp only [List.getElem?_cons_succ] at hx
      simpa [nanZero] using ih j x hx

/-- Reduction of get_data on the derived name source_acc with the total
statistic, on any state not declaring that name among its stored series. -/
lemma get_data_source_acc (e : Dust_Evo) (sub : String)
    (h1 : "source_acc" ∉ e.totals) (h2 : "source_acc" ∉ e.medians)
    (h3 : "source_acc" ∉ e.star_totals) :
    e.get_data "source_acc" sub "total"
      = some (nanZero (divArr (e.dust_evo_data.total_data "M_acc_dust")
          (e.dust_evo_data.total_data "M_dust"))) := by
  rw [Dust_Evo.get_data]
  rw [if_neg (by simp)]
  rw [if_neg h1, if_neg h2, if_neg h3]
  rw [if_neg (by decide), if_neg (fun hc => absurd hc.1 (by decide))]
  rw [if_pos (by decide), if_pos (by decide), if_pos (by decide)]

/-- Reduction of get_data on the derived name spec_sil with the total
statistic, on any state not declaring that name among its stored series. -/
lemma get_data_spec_sil (e : Dust_Evo) (sub : String)
    (h1 : "spec_sil" ∉ e.totals) (h2 : "spec_sil" ∉ e.medians)
    (h3 : "spec_sil" ∉ e.star_totals) :
    e.get_data "spec_sil" sub "total"
      = some (nanZero (divArr (e.dust_evo_data.total_data "M_sil")
          (e.dust_evo_data.total_data "M_dust"))) := by
  rw [Dust_Evo.get_data]
  rw [if_neg (by simp)]
  rw [if_neg h1, if_neg h2, if_neg h3]
  rw [if_neg (by decide), if_neg (fun hc => absurd hc.1 (by decide))]
  rw [if_neg (by decide), if_pos (by decide), if_pos (by decide), if_pos (by decide)]

/-- C1: on construction every tracked array has length hi - lo + 1, but
widening the range exhibits the append slip in change_snap_lims: widening
the limits from zero-one to zero-three appends three slots instead of two
because the source computes the append count from the lower stored limit, so
every tracked array ends with length 5 while the claimed length, and the
num_snaps field the same method sets, is 4. -/
theorem c1_change_snap_lims_append_bug :
    narrowInit.time.length = 2
    ∧ narrowInit.snap_loaded.length = 2
    ∧ widenedState.snap_lims = (0, 3)
    ∧ widenedState.num_snaps = 4
    ∧ widenedState.time.length = 5
    ∧ widenedState.snap_loaded.length = 5
    ∧ (widenedState.total_data "M_gas").length = 5
    ∧ (widenedState.star_total_data "M_star").length = 5
    ∧ (widenedState.median_data "all" "D/Z").length = 5
    ∧ widenedState.time.length ≠ 4 := by decide

/-- C2: the claim expects the 50th percentile of the values one to four under
equal weights to be the unweighted median 5/2; the routine returns 2, because
it assigns each sorted value the percent rank of its right cumulative weight
endpoint, placing the second value exactly at rank 50. -/
theorem c2_weighted_percentile_counterexample :
    weighted_percentile [1, 2, 3, 4] [50] none = some [2] ∧ (2 : ℚ) ≠ 5 / 2 := by decide

/-- C2 amended: at the 50th percentile on the values one to four the routine
returns 2 under equal weighting, whether implicit or explicit; with the whole
weight on a single element it returns that element only when the element is
the first in sorted order, and otherwise interpolates from the preceding
value: weights concentrated on the second, third and fourth element give 3/2,
5/2 and 7/2 in place of 2, 3 and 4. -/
theorem c2_weighted_percentile_amended :
    weighted_percentile [1, 2, 3, 4] [50] none = some [2]
    ∧ weighted_percentile [1, 2, 3, 4] [50] (some [1, 1, 1, 1]) = some [2]
    ∧ weighted_percentile [1, 2, 3, 4] [50] (some [1, 0, 0, 0]) = some [1]
    ∧ weighted_percentile [1, 2, 3, 4] [50] (some [0, 1, 0, 0]) = some [3 / 2]
    ∧ weighted_percentile [1, 2, 3, 4] [50] (some [0, 0, 1, 0]) = some [5 / 2]
    ∧ weighted_percentile [1, 2, 3, 4] [50] (some [0, 0, 0, 1]) = some [7 / 2] := by decide

/-- C3: the claim says a no-snapshot sentinel leaves the loaded flag false
for a later retry; against the code, loading one index whose reader result is
the sentinel (kind minus one, empty collections) sets the loaded flag. -/
theorem c3_missing_snapshot_counterexample :
    sentinelSnap.k = -1
    ∧ missState.snap_loaded.getD 0 false = false
    ∧ (missState.load sentinelReader 5).snap_loaded.getD 0 false = true := by decide

/-- C3 amended: Dust_Evo_Data.load performs no missing-snapshot detection;
it never inspects the sentinel kind, processes the empty result like any
snapshot (zero totals, NaN medians over the empty particle set), marks the
index loaded so it is never retried, and finishes the range. -/
theorem c3_missing_snapshot_amended :
    (missState.load sentinelReader 5).snap_loaded = [true]
    ∧ (missState.load sentinelReader 5).all_snaps_loaded = true
    ∧ (missState.load sentinelReader 5).total_data "M_gas" = [FVal.num 0]
    ∧ (missState.load sentinelReader 5).median_data "all" "D/Z" = [FVal.nan] := by decide

/-- C4: save writes the pickle under dirc plus name plus the .pickle suffix,
while the constructor probes dirc plus name with no suffix, so constructing a
second aggregator after a save finds nothing and builds a fresh state instead
of restoring: the saved state has its halo selector configured, the freshly
constructed one does not; only the restore step inside Dust_Evo.load reads
the suffixed path and would restore it. -/
theorem c4_constructor_restore_bug :
    (rtBase.set_halo [("hkey", "hval")] []).dust_evo_data.setHalo = true
    ∧ (rtSaved (rtSecond.dirc ++ rtSecond.name ++ ".pickle")).isSome = true
    ∧ (rtSaved (rtSecond.dirc ++ rtSecond.name)).isNone = true
    ∧ rtSecond.dust_evo_data.setHalo = false
    ∧ (Dust_Evo.loadRestore rtSaved rtSecond).dust_evo_data.setHalo = true := by decide

/-- C5: the claim says every entry of a derived total fraction at which the
division is undefined is coerced to zero; against the code, an entry dividing
a nonzero accreted dust total by a zero dust total is returned as positive
infinity, reachable by loading a snapshot whose dust-mass column is NaN. -/
theorem c5_derived_fraction_counterexample :
    skewEvo.dust_evo_data.total_data "M_acc_dust" = [FVal.num 1]
    ∧ skewEvo.dust_evo_data.total_data "M_dust" = [FVal.num 0]
    ∧ skewEvo.get_data "source_acc" "all" "total" = some [FVal.inf]
    ∧ FVal.inf ≠ FVal.num 0 := by decide

/-- C5 amended: for a derived fraction fetched with the total statistic
(shown for source_acc and spec_sil), the returned series never contains NaN:
every entry whose quotient is NaN, in particular zero divided by zero at
unloaded slots, is coerced to zero; a nonzero total divided by a zero total
however yields a signed infinity that is returned as is. -/
theorem c5_derived_fraction_amended :
    ∀ (e : Dust_Evo) (sub : String),
      "source_acc" ∉ e.totals → "source_acc" ∉ e.medians → "source_acc" ∉ e.star_totals →
      "spec_sil" ∉ e.totals → "spec_sil" ∉ e.medians → "spec_sil" ∉ e.star_totals →
      (∃ l, e.get_data "source_acc" sub "total" = some l
        ∧ (∀ v ∈ l, v.isnan = false)
        ∧ ∀ (i : ℕ) (a b : FVal),
            (e.dust_evo_data.total_data "M_acc_dust")[i]? = some a →
            (e.dust_evo_data.total_data "M_dust")[i]? = some b →
            (a.div b).isnan = true → l[i]? = some (FVal.num 0))
      ∧ (∃ l, e.get_data "spec_sil" sub "total" = some l
        ∧ (∀ v ∈ l, v.isnan = false)
        ∧ ∀ (i : ℕ) (a b : FVal),
            (e.dust_evo_data.total_data "M_sil")[i]? = some a →
            (e.dust_evo_data.total_data "M_dust")[i]? = some b →
            (a.div b).isnan = true → l[i]? = some (FVal.num 0)) := by
  intro e sub h1 h2 h3 h4 h5 h6
  constructor
  · refine ⟨_, get_data_source_acc e sub h1 h2 h3, nanZero_not_nan _, ?_⟩
    intro i a b ha hb hn
    rw [nanZero_getElem _ i _ (divArr_getElem _ _ i a b ha hb)]
    simp [hn]
  · refine ⟨_, get_data_spec_sil e sub h4 h5 h6, nanZero_not_nan _, ?_⟩
    intro i a b ha hb hn
    rw [nanZero_getElem _ i _ (divArr_getElem _ _ i a b ha hb)]
    simp [hn]

/-- C5 witness: the amended statement instantiated at the loaded skewed
aggregator, whose declared name sets are the defaults. -/
theorem c5_derived_fraction_witness :
    (∃ l, skewEvo.get_data "source_acc" "all" "total" = some l
      ∧ (∀ v ∈ l, v.isnan = false)
      ∧ ∀ (i : ℕ) (a b : FVal),
          (skewEvo.dust_evo_data.total_data "M_acc_dust")[i]? = some a →
          (skewEvo.dust_evo_data.total_data "M_dust")[i]? = some b →
          (a.div b).isnan = true → l[i]? = some (FVal.num 0))
    ∧ (∃ l, skewEvo.get_data "spec_sil" "all" "total" = some l
      ∧ (∀ v ∈ l, v.isnan = false)
      ∧ ∀ (i : ℕ) (a b : FVal),
          (skewEvo.dust_evo_data.total_data "M_sil")[i]? = some a →
          (skewEvo.dust_evo_data.total_data "M_dust")[i]? = some b →
          (a.div b).isnan = true → l[i]? = some (FVal.num 0)) :=
  c5_derived_fraction_amended skewEvo "all" (by decide) (by decide) (by decide)
    (by decide) (by decide) (by decide)

/-- C6: a batch marks exactly the first increment not-yet-loaded positions in
ascending order and stops, stated as the refinement of the loaded flags by
the specBatchMark walk for every state whose flag array spans its range;
instantiated on ten unloaded indices, a batch of five loads the first five
and leaves all_snaps_loaded unset, a second batch completes the range and
sets it, and a third call is the identity; in general any call on a fully
loaded state with all_snaps_loaded set changes nothing and processes no
snapshot. -/
theorem c6_load_batch_order_idempotent :
    (∀ (s : Dust_Evo_Data) (r : ℤ → SnapData) (inc : ℕ),
        (s.setHalo = true ∨ s.setDisk = true) →
        s.snap_loaded.length = ((s.snap_lims.2 + 1) - s.snap_lims.1).toNat →
        (s.load r inc).snap_loaded = specBatchMark inc s.snap_loaded)
    ∧ (batchState.load oneReader 5).snap_loaded
        = [true, true, true, true, true, false, false, false, false, false]
    ∧ (batchState.load oneReader 5).all_snaps_loaded = false
    ∧ ((batchState.load oneReader 5).load oneReader 5).snap_loaded = List.replicate 10 true
    ∧ ((batchState.load oneReader 5).load oneReader 5).all_snaps_loaded = true
    ∧ (((batchState.load oneReader 5).load oneReader 5).load oneReader 5)
        = (batchState.load oneReader 5).load oneReader 5
    ∧ ∀ (s : Dust_Evo_Data) (r : ℤ → SnapData) (inc : ℕ),
        s.all_snaps_loaded = true →
        (∀ i, i < ((s.snap_lims.2 + 1) - s.snap_lims.1).toNat →
          s.snap_loaded.getD i false = true) →
        s.load r inc = s := by
  refine ⟨?_, by decide, by decide, by decide, by decide, ?_, ?_⟩
  · intro s r inc hsel hlen
    rw [Dust_Evo_Data.load, if_neg (by rcases hsel with h | h <;> simp [h])]
    have h := loadGo_flags r inc ((s.snap_lims.2 + 1 - s.snap_lims.1).toNat) 0 0
      s.snap_lims.1 s (by omega)
    rw [h]
    simp
  · exact load_idem _ oneReader 5 (by decide) (by decide)
  · intro s r inc hall hflags
    exact load_idem s r inc hall hflags

/-- C6 witness: the flag refinement and the idempotence applied to the
concrete ten-snapshot scenario. -/
theorem c6_load_batch_witness :
    (batchState.load oneReader 5).snap_loaded = specBatchMark 5 batchState.snap_loaded
    ∧ ((batchState.load oneReader 5).load oneReader 5).load oneReader 5
        = (batchState.load oneReader 5).load oneReader 5 :=
  ⟨c6_load_batch_order_idempotent.1 batchState oneReader 5 (Or.inl (by decide)) (by decide),
   c6_load_batch_order_idempotent.2.2.2.2.2.2
     ((batchState.load oneReader 5).load oneReader 5) oneReader 5 (by decide) (by decide)⟩

/-- C7: without a configured selector, a batch load reports the
configuration error and performs no work: the state is returned unmutated. -/
theorem c7_no_selector_aborts :
    ∀ (s : Dust_Evo_Data) (r : ℤ → SnapData) (inc : ℕ),
      s.setHalo = false → s.setDisk = false → s.load r inc = s :=
  fun s r inc h1 h2 => load_no_selector s r inc h1 h2

/-- C7 witness: the unconfigured fresh state is untouched by a load call. -/
theorem c7_no_selector_witness :
    (Dust_Evo_Data.init "m12i/output/" (0, 3) ["M_gas"] ["D/Z"] ["all"] ["M_star"]
        false false).load oneReader 5
      = Dust_Evo_Data.init "m12i/output/" (0, 3) ["M_gas"] ["D/Z"] ["all"] ["M_star"]
          false false :=
  c7_no_selector_aborts _ oneReader 5 (by decide) (by decide)

/-- C8: the claim says the stored selector parameters are frozen after the
first configuration call of either kind; against the code, a set_disk call
following a set_halo call finds setDisk still false and overwrites the shared
keyword dictionaries, while setHalo remains set, so later loads select the
halo path with the disk arguments. -/
theorem c8_reconfigure_counterexample :
    haloConfigured.load_kwargs = [("hl", "1")]
    ∧ thenDiskConfigured.load_kwargs = [("dl", "3")]
    ∧ thenDiskConfigured.load_kwargs ≠ haloConfigured.load_kwargs
    ∧ thenDiskConfigured.set_kwargs ≠ haloConfigured.set_kwargs
    ∧ thenDiskConfigured.setHalo = true := by decide

/-- C8 amended: the selector parameters are frozen per kind: a repeated
set_halo call on a state whose halo flag is set is the identity, and likewise
a repeated set_disk call; only a first call of the other kind can still
overwrite the stored dictionaries. -/
theorem c8_reconfigure_amended :
    (∀ (s : Dust_Evo_Data) (kw sw : KW), s.setHalo = true → s.set_halo kw sw = s)
    ∧ ∀ (s : Dust_Evo_Data) (kw sw : KW), s.setDisk = true → s.set_disk kw sw = s := by
  constructor
  · intro s kw sw h; rw [Dust_Evo_Data.set_halo, if_pos h]
  · intro s kw sw h; rw [Dust_Evo_Data.set_disk, if_pos h]

/-- C8 witness: a second halo configuration with different arguments leaves
the configured state untouched. -/
theorem c8_reconfigure_witness :
    haloConfigured.set_halo [("other", "9")] [("more", "8")] = haloConfigured :=
  c8_reconfigure_amended.1 haloConfigured _ _ (by decide)

/-- C9: a subsample predicate name outside the recognized five produces the
all-true inclusion mask over the filtered gas particles, the same mask the
subsample named all produces, and no error. -/
theorem c9_unknown_subsample_all :
    ∀ (name : String) (n : ℕ) (T fnh fH2 : List FVal),
      name ∉ ["all", "cold", "hot", "neutral", "molecular"] →
      subsample_mask name n T fnh fH2 = List.replicate n true
      ∧ subsample_mask name n T fnh fH2 = subsample_mask "all" n T fnh fH2 := by
  intro name n T fnh fH2 h
  have ha : ¬ name = "all" := fun hx => h (by simp [hx])
  have hc : ¬ name = "cold" := fun hx => h (by simp [hx])
  have hh : ¬ name = "hot" := fun hx => h (by simp [hx])
  have hn : ¬ name = "neutral" := fun hx => h (by simp [hx])
  have hm : ¬ name = "molecular" := fun hx => h (by simp [hx])
  constructor
  · rw [subsample_mask, if_neg ha, if_neg hc, if_neg hh, if_neg hn, if_neg hm]
  · rw [subsample_mask, if_neg ha, if_neg hc, if_neg hh, if_neg hn, if_neg hm]
    rw [show subsample_mask "all" n T fnh fH2 = List.replicate n true from
      by rw [subsample_mask, if_pos rfl]]

/-- C9 witness: the unknown name warm yields the all-true mask on a
two-particle collection. -/
theorem c9_unknown_subsample_witness :
    subsample_mask "warm" 2 [FVal.num 1, FVal.num 20000] [FVal.num 1, FVal.num 0]
        [FVal.num 0, FVal.num 0] = List.replicate 2 true :=
  (c9_unknown_subsample_all "warm" 2 _ _ _ (by decide)).1

/-- C10: calling Dust_Evo.load on a freshly constructed aggregator with no
selector ever configured never terminates: after the restore step on the
empty filesystem, every iteration of the while-loop body returns the state
unchanged, so all_snaps_loaded is false after every number of iterations and
the loop guard never becomes false, while each iteration re-saves the same
state. -/
theorem c10_load_never_terminates :
    ∀ (sdir : String) (lims : ℤ × ℤ) (c p : Bool)
      (t m ms st : Option (List String)) (dirc pn : String)
      (r : ℤ → SnapData) (inc n : ℕ),
      (Dust_Evo.loadStep r inc)^[n]
          (Dust_Evo.loadRestore emptyFS
            (Dust_Evo.init emptyFS sdir lims c p t m ms st dirc pn))
        = Dust_Evo.loadRestore emptyFS (Dust_Evo.init emptyFS sdir lims c p t m ms st dirc pn)
      ∧ ((Dust_Evo.loadStep r inc)^[n]
          (Dust_Evo.loadRestore emptyFS
            (Dust_Evo.init emptyFS sdir lims c p t m ms st dirc pn))).dust_evo_data.all_snaps_loaded
        = false := by
  intro sdir lims c p t m ms st dirc pn r inc n
  have hres : Dust_Evo.loadRestore emptyFS (Dust_Evo.init emptyFS sdir lims c p t m ms st dirc pn)
      = Dust_Evo.init emptyFS sdir lims c p t m ms st dirc pn := rfl
  have hfix : Dust_Evo.loadStep r inc (Dust_Evo.init emptyFS sdir lims c p t m ms st dirc pn)
      = Dust_Evo.init emptyFS sdir lims c p t m ms st dirc pn := by
    rw [Dust_Evo.loadStep]
    rw [load_no_selector _ r inc rfl rfl]
  rw [hres, Function.iterate_fixed hfix]
  exact ⟨rfl, rfl⟩

end DustEvoVerification
